import Mathlib

/-!
Shallow embedding of the whatsapp-http-api repository (src/index.js, src/db.js)
for verifying the session-lifecycle / delivery-ledger specification.

The embedding models:
- the messages table of db.js and its operations (saveMessage, getMessages,
  getMessagesByIds, updateMessageDelivery, getUndeliveredMessages);
- the webhook forward / retry route handlers of index.js, with the HTTP fetch
  outcome supplied by an oracle (one outcome per target URL and message id);
- the SessionManager runtime state relevant to session deletion and the
  reconnect timer (sockets map, sessions table rows, auth folder / file layout,
  pending reconnect timers);
- the pair-request handler.

JavaScript truthiness on strings (empty string is falsy) is modelled
explicitly where the source relies on it.
-/

namespace WaApi

/-- Truthiness of an optional JS string: undefined/null and the empty string
are falsy, every other string is truthy. -/
def strTruthy : Option String → Bool
  | none => false
  | some s => s != ""

/-- Models the JS expression x || null on an optional string: a falsy value
(absent or empty) collapses to null. -/
def normStr (o : Option String) : Option String :=
  if strTruthy o then o else none

/-! ## Raw message shape (only the parts read by formatSenderNumber) -/

/-- The key object of a raw protocol message; formatSenderNumber reads
raw.key.participant. -/
structure RawKey where
  participant : Option String
deriving DecidableEq, Repr

/-- A raw protocol message as far as the forwarder inspects it:
raw.key.participant and raw.participant. -/
structure RawMsg where
  key : Option RawKey
  participant : Option String
deriving DecidableEq, Repr

/-! ## db.js: the messages table -/

/-- One row of the messages table created by db.js init: columns id,
session_id, from_jid, is_group, timestamp_ms, text, raw, delivered,
delivered_at, delivery_attempts, last_delivery_error, pending_webhook. -/
structure MsgRow where
  id : String
  sessionId : String
  fromJid : Option String
  isGroup : Bool
  timestampMs : Int
  text : Option String
  raw : Option RawMsg
  delivered : Bool
  deliveredAt : Option Int
  deliveryAttempts : Nat
  lastDeliveryError : Option String
  pendingWebhook : Option String
deriving DecidableEq, Repr

/-- The in-memory entry built by handleIncomingMessages in index.js:
fields id, from, isGroup, timestamp, text, raw (the JS property named from is
called from_ here because from is a Lean keyword). -/
structure IncomingEntry where
  id : String
  from_ : Option String
  isGroup : Bool
  timestamp : Int
  text : Option String
  raw : Option RawMsg
deriving DecidableEq, Repr

/-- The row inserted by db.saveMessage for an incoming entry.  The entry
carries no delivery fields, so the JS defaults apply: delivered gets
message.delivered || false = false, delivery_attempts gets
message.delivery_attempts || 0 = 0, last_delivery_error and pending_webhook
get ... || null = null. -/
def rowOfEntry (sessionId : String) (m : IncomingEntry) : MsgRow :=
  { id := m.id
    sessionId := sessionId
    fromJid := m.from_
    isGroup := m.isGroup
    timestampMs := m.timestamp
    text := m.text
    raw := m.raw
    delivered := false
    deliveredAt := none
    deliveryAttempts := 0
    lastDeliveryError := none
    pendingWebhook := none }

/-- db.saveMessage: INSERT ... ON CONFLICT (id) DO NOTHING.  If a row with the
same primary key id already exists the statement inserts nothing and still
succeeds; otherwise the new row is appended. -/
def saveMessage (tbl : List MsgRow) (sessionId : String) (m : IncomingEntry) :
    List MsgRow :=
  if tbl.any (fun r => r.id == m.id) then tbl
  else tbl ++ [rowOfEntry sessionId m]

/-- db.updateMessageDelivery: UPDATE messages SET
delivery_attempts = COALESCE(delivery_attempts,0) + 1, delivered = $2,
delivered_at = CASE WHEN $2 THEN now() ELSE delivered_at END,
last_delivery_error = $3, pending_webhook = $4 WHERE id = $1.
The argument order follows the JS destructuring
(delivered, pending_webhook, last_delivery_error); now stands for the SQL
now() timestamp.  updFun is the effect of the statement on one row: the SET
clause when WHERE id = $1 matches, the identity otherwise. -/
def updFun (id : String) (delivered : Bool)
    (pending_webhook last_delivery_error : Option String) (now : Int)
    (r : MsgRow) : MsgRow :=
  if r.id == id then
    { r with
      deliveryAttempts := r.deliveryAttempts + 1
      delivered := delivered
      deliveredAt := if delivered then some now else r.deliveredAt
      lastDeliveryError := last_delivery_error
      pendingWebhook := pending_webhook }
  else r

/-- The UPDATE statement applies updFun to every row of the table (the SET
clause fires exactly on the rows matched by WHERE id = $1). -/
def updateMessageDelivery (tbl : List MsgRow) (id : String) (delivered : Bool)
    (pending_webhook last_delivery_error : Option String) (now : Int) :
    List MsgRow :=
  tbl.map (updFun id delivered pending_webhook last_delivery_error now)

/-- The JS object shape returned by the db.js SELECT row mappers: res.rows.map
gives id, from (called from_ here), isGroup, timestamp, text, delivered,
deliveryAttempts, lastDeliveryError, pendingWebhook; raw is not selected. -/
structure Message where
  id : String
  from_ : Option String
  isGroup : Bool
  timestamp : Int
  text : Option String
  delivered : Bool
  deliveryAttempts : Nat
  lastDeliveryError : Option String
  pendingWebhook : Option String
  raw : Option RawMsg
deriving DecidableEq, Repr

/-- The row mapper shared by getMessages, getMessagesByIds and
getUndeliveredMessages: from := r.from_jid, delivered := !!r.delivered,
deliveryAttempts := r.delivery_attempts || 0 (identity on a Nat),
lastDeliveryError := r.last_delivery_error || null,
pendingWebhook := r.pending_webhook || null; raw is not selected. -/
def rowView (r : MsgRow) : Message :=
  { id := r.id
    from_ := r.fromJid
    isGroup := r.isGroup
    timestamp := r.timestampMs
    text := r.text
    delivered := r.delivered
    deliveryAttempts := r.deliveryAttempts
    lastDeliveryError := normStr r.lastDeliveryError
    pendingWebhook := normStr r.pendingWebhook
    raw := none }

/-- The descending timestamp order used by the ORDER BY timestamp_ms DESC
clauses. -/
def tsDesc (a b : MsgRow) : Prop := b.timestampMs ≤ a.timestampMs

instance : DecidableRel tsDesc := fun a b =>
  inferInstanceAs (Decidable (b.timestampMs ≤ a.timestampMs))

instance : IsTotal MsgRow tsDesc :=
  ⟨fun a b => le_total b.timestampMs a.timestampMs⟩

instance : IsTrans MsgRow tsDesc :=
  ⟨fun _ _ _ hab hbc => le_trans hbc hab⟩

/-- Options object of db.getMessages: { limit = 50, since, type }. -/
structure GetOpts where
  type : Option String := none
  limit : Int := 50
  since : Option Int := none
deriving DecidableEq, Repr

/-- The LIMIT value computed by db.getMessages:
Math.min(500, Math.max(1, Number(limit) || 50)); a zero limit is falsy in JS
and falls back to 50. -/
def effLimit (limit : Int) : Nat :=
  (min 500 (max 1 (if limit == 0 then 50 else limit))).toNat

/-- Row selection of db.getMessages: WHERE session_id = $1 with the optional
type and since filters, ORDER BY timestamp_ms DESC, LIMIT effLimit.  A since
value of 0 is falsy in JS, so no since filter is added for it. -/
def getMessagesRows (tbl : List MsgRow) (sessionId : String) (opts : GetOpts) :
    List MsgRow :=
  let base := tbl.filter fun r =>
    (r.sessionId == sessionId)
    && (match opts.type with
        | some "group" => r.isGroup
        | some "individual" => !r.isGroup
        | _ => true)
    && (match opts.since with
        | some t => if t == 0 then true else decide (t ≤ r.timestampMs)
        | none => true)
  (List.insertionSort tsDesc base).take (effLimit opts.limit)

/-- db.getMessages: selected rows passed through the row mapper. -/
def getMessages (tbl : List MsgRow) (sessionId : String) (opts : GetOpts) :
    List Message :=
  (getMessagesRows tbl sessionId opts).map rowView

/-- Row selection of db.getMessagesByIds: early return [] for an absent or
empty ids array; otherwise WHERE id = ANY($1), and AND session_id = '...' only
when the sessionId argument is truthy.  The query has no ORDER BY. -/
def getMessagesByIdsRows (tbl : List MsgRow) (ids : List String)
    (sessionId : String) : List MsgRow :=
  if ids.isEmpty then []
  else tbl.filter fun r =>
    ids.contains r.id && (if sessionId == "" then true else r.sessionId == sessionId)

/-- db.getMessagesByIds: selected rows passed through the row mapper. -/
def getMessagesByIds (tbl : List MsgRow) (ids : List String)
    (sessionId : String) : List Message :=
  (getMessagesByIdsRows tbl ids sessionId).map rowView

/-- Row selection of db.getUndeliveredMessages: WHERE session_id = $1 AND
(delivered = false OR pending_webhook IS NOT NULL), plus
AND pending_webhook = $2 when the webhook argument is truthy (SQL equality
against a NULL column is never true), ORDER BY timestamp_ms DESC. -/
def getUndeliveredRows (tbl : List MsgRow) (sessionId : String)
    (webhook : Option String) : List MsgRow :=
  let base := tbl.filter fun r =>
    (r.sessionId == sessionId)
    && (!r.delivered || r.pendingWebhook.isSome)
    && (match webhook with
        | some w => if w == "" then true else r.pendingWebhook == some w
        | none => true)
  List.insertionSort tsDesc base

/-- db.getUndeliveredMessages: selected rows passed through the row mapper. -/
def getUndeliveredMessages (tbl : List MsgRow) (sessionId : String)
    (webhook : Option String) : List Message :=
  (getUndeliveredRows tbl sessionId webhook).map rowView

/-- First match of the regex (\d{6,15}) with explicit fuel: at each starting
position a run of at least 6 digits matches (greedily capped at 15); shorter
runs make the engine advance past the run. -/
def firstDigitRunFuel : Nat → List Char → Option (List Char)
  | 0, _ => none
  | _ + 1, [] => none
  | fuel + 1, c :: cs =>
    let run := (c :: cs).takeWhile Char.isDigit
    if run.length ≥ 6 then some (run.take 15)
    else firstDigitRunFuel fuel ((c :: cs).drop (run.length + 1))

/-- First run of 6 to 15 digits in a character list, as matched by
String(candidate).match of the regex (\d{6,15}) in formatSenderNumber. -/
def firstDigitRun (l : List Char) : Option (List Char) :=
  firstDigitRunFuel l.length l

/-! ## index.js: webhook payload construction -/

/-- SessionManager.formatSenderNumber: candidate is raw.key.participant when
truthy, else raw.participant when truthy, else the jid; a falsy candidate
gives null; otherwise the first run of 6 to 15 digits is formatted as
+digits, and null is returned when no such run exists. -/
def formatSenderNumber (jid : Option String) (raw : Option RawMsg) :
    Option String :=
  let c1 : Option String := match raw with
    | some rm => match rm.key with
      | some k => if strTruthy k.participant then k.participant else none
      | none => none
    | none => none
  let c2 : Option String := if strTruthy c1 then c1 else
    match raw with
    | some rm => if strTruthy rm.participant then rm.participant else none
    | none => none
  let c3 : Option String := if strTruthy c2 then c2 else jid
  if strTruthy c3 then
    match firstDigitRun (c3.getD "").toList with
    | some ds => some ("+" ++ String.mk ds)
    | none => none
  else none

/-- The sanitized webhook payload built by
SessionManager.buildWebhookPayload: fields id, fromJid, from (from_ here),
isGroup, timestamp, text, delivered, deliveryAttempts, lastDeliveryError,
pendingWebhook, raw. -/
structure WebhookPayload where
  id : String
  fromJid : Option String
  from_ : Option String
  isGroup : Bool
  timestamp : Option Int
  text : Option String
  delivered : Option Bool
  deliveryAttempts : Nat
  lastDeliveryError : Option String
  pendingWebhook : Option String
  raw : Option RawMsg
deriving DecidableEq, Repr

/-- SessionManager.buildWebhookPayload applied to a ledger row object (the
shape produced by the db.js row mappers): fromJid := message.from || null
(the from_jid fallback is for raw DB row shapes that never reach this call),
from := formatSenderNumber(fromJid, raw) where raw is absent on selected
rows, timestamp := message.timestamp || null (0 is falsy), text/
lastDeliveryError/pendingWebhook := field || null, delivered is defined on
row objects so it is passed through, deliveryAttempts := field || 0. -/
def buildWebhookPayload (m : Message) : WebhookPayload :=
  let fromJid := normStr m.from_
  { id := m.id
    fromJid := fromJid
    from_ := formatSenderNumber fromJid m.raw
    isGroup := m.isGroup
    timestamp := if m.timestamp == 0 then none else some m.timestamp
    text := normStr m.text
    delivered := some m.delivered
    deliveryAttempts := m.deliveryAttempts
    lastDeliveryError := normStr m.lastDeliveryError
    pendingWebhook := normStr m.pendingWebhook
    raw := m.raw }

/-! ## index.js: postToWebhook and the forward / retry handlers -/

/-- Outcome of the global fetch call inside postToWebhook: either an HTTP
response with a status code and a body text, or a rejection (network error or
the 5 second AbortController timeout) carrying the error message the caller
observes as String(e.message || e). -/
inductive FetchResult where
  | response (status : Nat) (bodyText : String)
  | abortOrNetworkError (message : String)
deriving DecidableEq, Repr

/-- The outbound HTTP request issued by postToWebhook. -/
structure HttpRequest where
  url : String
  method : String
  contentType : String
  body : WebhookPayload
  timeoutMs : Nat
deriving DecidableEq, Repr

/-- The AbortController timeout in postToWebhook:
setTimeout(() => controller.abort(), 5000). -/
def webhookTimeoutMs : Nat := 5000

/-- res.ok of the fetch Response: status in the inclusive range 200-299. -/
def resOk (status : Nat) : Bool :=
  decide (200 ≤ status) && decide (status ≤ 299)

/-- SessionManager.postToWebhook: a falsy url returns without issuing any
request; otherwise a POST with Content-Type application/json, the JSON
payload as body and the 5000 ms abort timeout is issued.  A non-ok response
throws Error("Webhook POST failed: " ++ status ++ " " ++ text); a fetch
rejection is rethrown unchanged.  The first component is the request issued
(if any), the second the success-or-thrown-message outcome. -/
def postToWebhook (url : String) (payload : WebhookPayload)
    (fetched : FetchResult) : Option HttpRequest × Except String Unit :=
  if url == "" then (none, .ok ())
  else
    (some { url := url, method := "POST", contentType := "application/json",
            body := payload, timeoutMs := webhookTimeoutMs },
     match fetched with
     | .response status bodyText =>
       if resOk status then .ok ()
       else .error ("Webhook POST failed: " ++ toString status ++ " " ++ bodyText)
     | .abortOrNetworkError msg => .error msg)

/-- One element of the results array of the forward and forward/retry
routes: { id, status: 'delivered' }, { id, status: 'pending', error } or
{ id, status: 'skipped', reason: 'no webhook configured' }. -/
structure ForwardOutcome where
  id : String
  status : String
  error : Option String := none
  reason : Option String := none
deriving DecidableEq, Repr

/-- The per-message loop body of the forward route, keyed by an oracle giving
the fetch outcome for each target URL and message id: on success the ledger
records delivered = true, pending_webhook = null, last_delivery_error = null;
on a caught error it records delivered = false, pending_webhook = webhook,
last_delivery_error = String(e.message || e). -/
def forwardLoop (webhook : String) (oracle : String → String → FetchResult)
    (now : Int) : List MsgRow → List Message → List MsgRow × List ForwardOutcome
  | tbl, [] => (tbl, [])
  | tbl, m :: ms =>
    match (postToWebhook webhook (buildWebhookPayload m) (oracle webhook m.id)).2 with
    | .ok _ =>
      let tbl := updateMessageDelivery tbl m.id true none none now
      let rest := forwardLoop webhook oracle now tbl ms
      (rest.1, { id := m.id, status := "delivered" } :: rest.2)
    | .error e =>
      let tbl := updateMessageDelivery tbl m.id false (some webhook) (some e) now
      let rest := forwardLoop webhook oracle now tbl ms
      (rest.1, { id := m.id, status := "pending", error := some e } :: rest.2)

/-- The POST /sessions/:id/forward handler: requires a session id and a
truthy webhook in the body; selects db.getMessagesByIds(ids, sessionId) when
ids is a non-empty array and db.getMessages(sessionId, { limit: 50 })
otherwise, then runs the sequential forward loop.  Route-level validation
failures are the 400 error responses. -/
def forwardRoute (tbl : List MsgRow) (sessionId : String)
    (webhook : Option String) (ids : Option (List String))
    (oracle : String → String → FetchResult) (now : Int) :
    Except String (List MsgRow × List ForwardOutcome) :=
  if sessionId == "" then .error "Session ID required"
  else if ¬ strTruthy webhook then .error "Webhook URL required in body"
  else
    let w := webhook.getD ""
    let messages := match ids with
      | some l =>
        if l.isEmpty then getMessages tbl sessionId { limit := 50 }
        else getMessagesByIds tbl l sessionId
      | none => getMessages tbl sessionId { limit := 50 }
    .ok (forwardLoop w oracle now tbl messages)

/-- The target selection of the retry loop:
const target = webhook || m.pendingWebhook || null. -/
def retryTarget (webhook : Option String) (m : Message) : Option String :=
  if strTruthy webhook then webhook
  else if strTruthy m.pendingWebhook then m.pendingWebhook
  else none

/-- The per-message loop body of the forward/retry route: with no target the
message is reported skipped with reason 'no webhook configured' and nothing
is updated; with a target the attempt proceeds exactly as in the forward
loop against that target. -/
def retryLoop (webhook : Option String) (oracle : String → String → FetchResult)
    (now : Int) : List MsgRow → List Message → List MsgRow × List ForwardOutcome
  | tbl, [] => (tbl, [])
  | tbl, m :: ms =>
    match retryTarget webhook m with
    | none =>
      let rest := retryLoop webhook oracle now tbl ms
      (rest.1,
       { id := m.id, status := "skipped", reason := some "no webhook configured" } :: rest.2)
    | some t =>
      match (postToWebhook t (buildWebhookPayload m) (oracle t m.id)).2 with
      | .ok _ =>
        let tbl := updateMessageDelivery tbl m.id true none none now
        let rest := retryLoop webhook oracle now tbl ms
        (rest.1, { id := m.id, status := "delivered" } :: rest.2)
      | .error e =>
        let tbl := updateMessageDelivery tbl m.id false (some t) (some e) now
        let rest := retryLoop webhook oracle now tbl ms
        (rest.1, { id := m.id, status := "pending", error := some e } :: rest.2)

/-- The POST /sessions/:id/forward/retry handler: selects
db.getMessagesByIds(ids, sessionId) when ids is a non-empty array and
db.getUndeliveredMessages(sessionId, webhook) otherwise, then runs the
sequential retry loop. -/
def retryRoute (tbl : List MsgRow) (sessionId : String)
    (ids : Option (List String)) (webhook : Option String)
    (oracle : String → String → FetchResult) (now : Int) :
    Except String (List MsgRow × List ForwardOutcome) :=
  if sessionId == "" then .error "Session ID required"
  else
    let messages := match ids with
      | some l =>
        if l.isEmpty then getUndeliveredMessages tbl sessionId webhook
        else getMessagesByIds tbl l sessionId
      | none => getUndeliveredMessages tbl sessionId webhook
    .ok (retryLoop webhook oracle now tbl messages)

/-! ## Ledger operations as the repository invokes them -/

/-- The ledger operations on the messages table as they occur in the
repository: db.saveMessage is called only from handleIncomingMessages, and
every call of db.updateMessageDelivery (handleIncomingMessages, the webhook
config route, the forward route, the retry route) uses one of exactly two
argument patterns: { delivered: true, pending_webhook: null,
last_delivery_error: null } on a successful POST, or { delivered: false,
pending_webhook: target, last_delivery_error: reason } on a failed one. -/
inductive LedgerOp where
  | ingest (sessionId : String) (entry : IncomingEntry)
  | recordSuccess (id : String) (now : Int)
  | recordFailure (id : String) (target : String) (reason : String) (now : Int)
deriving DecidableEq, Repr

/-- Apply one ledger operation to the messages table. -/
def applyLedgerOp (tbl : List MsgRow) : LedgerOp → List MsgRow
  | .ingest sid e => saveMessage tbl sid e
  | .recordSuccess id now => updateMessageDelivery tbl id true none none now
  | .recordFailure id t r now =>
    updateMessageDelivery tbl id false (some t) (some r) now

/-- First row of the table with the given primary key. -/
def findById (tbl : List MsgRow) (id : String) : Option MsgRow :=
  tbl.find? (fun r => r.id == id)

/-- Number of rows of the table with the given primary key. -/
def countId (tbl : List MsgRow) (id : String) : Nat :=
  (tbl.filter (fun r => r.id == id)).length

/-- The resting-state invariant of the spec: a delivered row has no pending
webhook. -/
def RestingInv (tbl : List MsgRow) : Prop :=
  ∀ r ∈ tbl, r.delivered = true → r.pendingWebhook = none

/-- The outcome reported for one message by the forward loop, determined by
that message alone (and the fetch oracle). -/
def forwardOutcomeOf (webhook : String) (oracle : String → String → FetchResult)
    (m : Message) : ForwardOutcome :=
  match (postToWebhook webhook (buildWebhookPayload m) (oracle webhook m.id)).2 with
  | .ok _ => { id := m.id, status := "delivered" }
  | .error e => { id := m.id, status := "pending", error := some e }

/-- The outcome reported for one message by the retry loop, determined by
that message alone (and the fetch oracle). -/
def retryOutcomeOf (webhook : Option String) (oracle : String → String → FetchResult)
    (m : Message) : ForwardOutcome :=
  match retryTarget webhook m with
  | none => { id := m.id, status := "skipped", reason := some "no webhook configured" }
  | some t =>
    match (postToWebhook t (buildWebhookPayload m) (oracle t m.id)).2 with
    | .ok _ => { id := m.id, status := "delivered" }
    | .error e => { id := m.id, status := "pending", error := some e }

/-- A sequence of delivery attempts against one message id, each with its
delivered / pending_webhook / last_delivery_error / now arguments, applied in
order through db.updateMessageDelivery. -/
def applyAttempts (id : String) (tbl : List MsgRow)
    (ops : List (Bool × Option String × Option String × Int)) : List MsgRow :=
  ops.foldl (fun t a => updateMessageDelivery t id a.1 a.2.1 a.2.2.1 a.2.2.2) tbl

/-! ## index.js: SessionManager runtime state, deletion, reconnect timer -/

/-- One value of the sockets map: { sock, isConnected, saveCreds }.
sockPresent records whether the sock property is set (it always is at
construction, but the handlers test for it). -/
structure SockEntry where
  sockPresent : Bool
  isConnected : Bool
deriving DecidableEq, Repr

/-- JS Map.set on an association list: replace the value when the key exists,
append otherwise. -/
def mapSet (m : List (String × SockEntry)) (k : String) (v : SockEntry) :
    List (String × SockEntry) :=
  if m.any (fun p => p.1 == k) then
    m.map (fun p => if p.1 == k then (k, v) else p)
  else m ++ [(k, v)]

/-- JS Map.delete on an association list. -/
def mapDelete (m : List (String × SockEntry)) (k : String) :
    List (String × SockEntry) :=
  m.filter (fun p => p.1 != k)

/-- The SessionManager state relevant to the lifecycle claims:
the sockets map, the ids of rows of the sessions table, the per-session
directories under ./auth_sessions, the plain files under ./auth_sessions
(such as a legacy id.json file), the session ids with a pending 5 second
reconnect setTimeout, and the log of connection handles on which end() was
invoked. -/
structure SessionMgr where
  sockets : List (String × SockEntry)
  dbSessions : List String
  authDirs : List String
  authFiles : List String
  timers : List String
  closedSocks : List String
deriving DecidableEq, Repr

/-- SessionManager.startSession: loads the session blob from the DB (present
iff the sessions row exists) and, when a blob was loaded, creates the
per-session auth folder if missing and writes the auth files into it; then it
builds a fresh socket and unconditionally executes
this.sockets.set(sessionId, { sock, isConnected: false, saveCreds }) —
there is no check whether a runtime entry (still) exists. -/
def startSession (st : SessionMgr) (sessionId : String) : SessionMgr :=
  let dirs :=
    if st.dbSessions.contains sessionId && !(st.authDirs.contains sessionId) then
      st.authDirs ++ [sessionId]
    else st.authDirs
  { st with
    authDirs := dirs
    sockets := mapSet st.sockets sessionId
      { sockPresent := true, isConnected := false } }

/-- The connection === 'close' branch of
SessionManager.handleConnectionUpdate: a missing runtime entry returns
immediately; otherwise isConnected is cleared and either a single reconnect
setTimeout(() => this.startSession(sessionId), 5000) is scheduled
(statusCode different from DisconnectReason.loggedOut), or — on the terminal
logged-out signal — the DB row is deleted, the auth folder removed
recursively, and the runtime entry deleted. -/
def handleConnectionClose (st : SessionMgr) (sessionId : String)
    (loggedOut : Bool) : SessionMgr :=
  match st.sockets.lookup sessionId with
  | none => st
  | some s =>
    let st' := { st with
      sockets := mapSet st.sockets sessionId { s with isConnected := false } }
    if !loggedOut then
      { st' with timers := st'.timers ++ [sessionId] }
    else
      { st' with
        dbSessions := st'.dbSessions.filter (fun i => i != sessionId)
        authDirs := st'.authDirs.filter (fun i => i != sessionId)
        sockets := mapDelete st'.sockets sessionId }

/-- The delay of the reconnect timer scheduled by handleConnectionUpdate:
setTimeout(..., 5000). -/
def reconnectDelayMs : Nat := 5000

/-- A scheduled reconnect timer fires: the pending timer is consumed and its
callback () => this.startSession(sessionId) runs. -/
def fireReconnectTimer (st : SessionMgr) (sessionId : String) : SessionMgr :=
  startSession { st with timers := st.timers.erase sessionId } sessionId

/-- The DELETE /sessions/:id handler SessionManager.deleteSession: calls
s.sock.end() when the runtime entry and its sock exist, deletes the runtime
entry, deletes the sessions row (db.deleteSession), and removes the file
path.join(this.authDir, sessionId + '.json') if it exists.  It does not touch
the per-session auth folder path.join(this.authDir, sessionId). -/
def deleteSessionRoute (st : SessionMgr) (sessionId : String) : SessionMgr :=
  let closed := match st.sockets.lookup sessionId with
    | some s => if s.sockPresent then st.closedSocks ++ [sessionId] else st.closedSocks
    | none => st.closedSocks
  { st with
    closedSocks := closed
    sockets := mapDelete st.sockets sessionId
    dbSessions := st.dbSessions.filter (fun i => i != sessionId)
    authFiles := st.authFiles.filter (fun f => f != sessionId ++ ".json") }

/-! ## index.js: the pair-request handler -/

/-- number.replace of the regex \D with the empty string: keep the ASCII
digits. -/
def cleanDigits (s : String) : String :=
  String.mk (s.toList.filter Char.isDigit)

/-- Result of the POST /sessions/:id/pair-request handler, by response
class: 400 invalid input, 503 session not initialized, 500 wrapping the
protocol error, 200 with the pairing code. -/
inductive PairResult where
  | invalidInput (msg : String)
  | notInitialized
  | upstreamFailure (details : String)
  | success (pairingCode : String)
deriving DecidableEq, Repr

/-- SessionManager.handlePairRequest: a missing session id in the URL is a
400; an absent, non-string or empty number is a 400; then the number is
stripped to its digits and must have length 10 to 15, else a 400; then the
runtime entry must exist with a sock handle, else a 503; finally
sock.requestPairingCode(cleanNumber) is awaited, a thrown error becoming a
500 carrying error.message and a result the 200 pairing-code response. -/
def handlePairRequest (sockets : List (String × SockEntry)) (sessionId : String)
    (number : Option String)
    (requestPairingCode : String → Except String String) : PairResult :=
  if sessionId == "" then .invalidInput "Session ID is required in the URL"
  else if ¬ strTruthy number then .invalidInput "Valid phone number is required"
  else
    let cleanNumber := cleanDigits (number.getD "")
    if cleanNumber.length < 10 ∨ cleanNumber.length > 15 then
      .invalidInput "Phone number must be between 10-15 digits"
    else
      match sockets.lookup sessionId with
      | none => .notInitialized
      | some s =>
        if !s.sockPresent then .notInitialized
        else
          match requestPairingCode cleanNumber with
          | .ok code => .success code
          | .error e => .upstreamFailure e

/-! ## Ledger lemmas -/

theorem updFun_id (id : String) (d : Bool) (p e : Option String) (now : Int)
    (r : MsgRow) : (updFun id d p e now r).id = r.id := by
  unfold updFun; split <;> rfl

theorem findById_updateMessageDelivery (tbl : List MsgRow) (id tid : String)
    (d : Bool) (p e : Option String) (now : Int) :
    findById (updateMessageDelivery tbl id d p e now) tid =
      (findById tbl tid).map (updFun id d p e now) := by
  unfold findById updateMessageDelivery
  have hpf : ((fun r : MsgRow => r.id == tid) ∘ updFun id d p e now) =
      (fun r : MsgRow => r.id == tid) := by
    funext r
    simp [Function.comp, updFun_id]
  rw [List.find?_map, hpf]

theorem findById_found_beq (tbl : List MsgRow) (tid : String) (r : MsgRow)
    (h : findById tbl tid = some r) : (r.id == tid) = true := by
  have h' : List.find? (fun r : MsgRow => r.id == tid) tbl = some r := h
  simpa using List.find?_some h'

theorem findById_update_found (tbl : List MsgRow) (id : String) (d : Bool)
    (p e : Option String) (now : Int) (r : MsgRow)
    (h : findById tbl id = some r) :
    findById (updateMessageDelivery tbl id d p e now) id =
      some { r with
             deliveryAttempts := r.deliveryAttempts + 1
             delivered := d
             deliveredAt := if d then some now else r.deliveredAt
             lastDeliveryError := e
             pendingWebhook := p } := by
  have hr : (r.id == id) = true := findById_found_beq tbl id r h
  rw [findById_updateMessageDelivery, h]
  simp [updFun, hr]

theorem saveMessage_of_any_true (tbl : List MsgRow) (sid : String)
    (en : IncomingEntry) (h : tbl.any (fun r => r.id == en.id) = true) :
    saveMessage tbl sid en = tbl := by
  unfold saveMessage
  rw [h]
  simp

theorem findById_saveMessage_found (tbl : List MsgRow) (sid : String)
    (en : IncomingEntry) (tid : String) (r : MsgRow)
    (h : findById tbl tid = some r) :
    findById (saveMessage tbl sid en) tid = some r := by
  unfold saveMessage
  split
  · exact h
  · unfold findById at h ⊢
    rw [List.find?_append, h]
    rfl

theorem findById_saveMessage_fresh (tbl : List MsgRow) (sid : String)
    (en : IncomingEntry) (h : findById tbl en.id = none) :
    findById (saveMessage tbl sid en) en.id = some (rowOfEntry sid en) := by
  have hall : ∀ r ∈ tbl, ¬((r.id == en.id) = true) := List.find?_eq_none.mp h
  have hany : tbl.any (fun r => r.id == en.id) = false := by
    rw [List.any_eq_false]
    exact hall
  unfold saveMessage
  rw [hany]
  simp only [Bool.false_eq_true, if_false]
  unfold findById at h ⊢
  rw [List.find?_append, h]
  simp [rowOfEntry]

theorem applyAttempts_found (id : String)
    (ops : List (Bool × Option String × Option String × Int)) :
    ∀ (tbl : List MsgRow) (r : MsgRow), findById tbl id = some r →
      ∃ r', findById (applyAttempts id tbl ops) id = some r' ∧
        r'.deliveryAttempts = r.deliveryAttempts + ops.length := by
  induction ops with
  | nil => exact fun tbl r h => ⟨r, h, rfl⟩
  | cons a ops ih =>
    intro tbl r h
    have hstep := findById_update_found tbl id a.1 a.2.1 a.2.2.1 a.2.2.2 r h
    obtain ⟨r', hr', hlen⟩ := ih _ _ hstep
    refine ⟨r', ?_, ?_⟩
    · simpa [applyAttempts] using hr'
    · simp only [hlen, List.length_cons]
      omega

/-! ## Claim theorems -/

/-- C3: ingestion is idempotent.  Ingesting an entry whose id is already
stored leaves the messages table unchanged (db.saveMessage is
INSERT ... ON CONFLICT (id) DO NOTHING, which also always succeeds), and
after a fresh ingest followed by a duplicate ingest of the same id — with any
content and for any session — the table holds exactly one row for that id,
carrying the originally ingested content. -/
theorem ingest_idempotent (tbl : List MsgRow) (sid sid' : String)
    (en en' : IncomingEntry) :
    (tbl.any (fun r => r.id == en.id) = true → saveMessage tbl sid en = tbl) ∧
    (en'.id = en.id → findById tbl en.id = none →
      saveMessage (saveMessage tbl sid en) sid' en' = saveMessage tbl sid en ∧
      countId (saveMessage tbl sid en) en.id = 1 ∧
      findById (saveMessage tbl sid en) en.id = some (rowOfEntry sid en)) := by
  constructor
  · intro h
    exact saveMessage_of_any_true tbl sid en h
  · intro hid hfresh
    have hall : ∀ r ∈ tbl, ¬((r.id == en.id) = true) := by
      have h' : List.find? (fun r : MsgRow => r.id == en.id) tbl = none := hfresh
      exact List.find?_eq_none.mp h'
    have hany : tbl.any (fun r => r.id == en.id) = false := by
      rw [List.any_eq_false]; exact hall
    have hsave : saveMessage tbl sid en = tbl ++ [rowOfEntry sid en] := by
      unfold saveMessage
      rw [hany]
      simp
    refine ⟨?_, ?_, findById_saveMessage_fresh tbl sid en hfresh⟩
    · have hany' : (saveMessage tbl sid en).any (fun r => r.id == en'.id) = true := by
        rw [hsave, List.any_append]
        have : ((rowOfEntry sid en).id == en'.id) = true := by
          simp [rowOfEntry, hid]
        simp [this]
      exact saveMessage_of_any_true _ sid' en' (by rw [show en'.id = en'.id from rfl]; exact hany')
    · have hfe : tbl.filter (fun r => r.id == en.id) = [] :=
        List.filter_eq_nil_iff.mpr hall
      unfold countId
      rw [hsave, List.filter_append, hfe]
      simp [rowOfEntry]

/-- C3 witness: a duplicate ingest of id m1 into a one-row table is a no-op
leaving one row with the original content. -/
theorem ingest_idempotent_witness :
    saveMessage (saveMessage [] "A"
        { id := "m1", from_ := some "j", isGroup := false, timestamp := 7,
          text := some "hi", raw := none }) "A"
        { id := "m1", from_ := some "other", isGroup := true, timestamp := 9,
          text := some "changed", raw := none } =
      saveMessage [] "A"
        { id := "m1", from_ := some "j", isGroup := false, timestamp := 7,
          text := some "hi", raw := none } ∧
    countId (saveMessage [] "A"
        { id := "m1", from_ := some "j", isGroup := false, timestamp := 7,
          text := some "hi", raw := none }) "m1" = 1 := by
  have h := (ingest_idempotent [] "A" "A"
      { id := "m1", from_ := some "j", isGroup := false, timestamp := 7,
        text := some "hi", raw := none }
      { id := "m1", from_ := some "other", isGroup := true, timestamp := 9,
        text := some "changed", raw := none }).2 rfl (by decide)
  exact ⟨h.1, h.2.1⟩

/-- C4: every delivery attempt — success or failure — increments the
deliveryAttempts counter of the attempted message by exactly one; after K
attempts following a fresh ingest the counter equals K exactly; and no
ledger operation of the repository ever decreases the counter of any row. -/
theorem deliveryAttempts_exact (tbl : List MsgRow) :
    (∀ id d p e now r, findById tbl id = some r →
      findById (updateMessageDelivery tbl id d p e now) id =
        some { r with
               deliveryAttempts := r.deliveryAttempts + 1
               delivered := d
               deliveredAt := if d then some now else r.deliveredAt
               lastDeliveryError := e
               pendingWebhook := p }) ∧
    (∀ sid en ops, findById tbl en.id = none →
      ∃ r, findById (applyAttempts en.id (saveMessage tbl sid en) ops) en.id = some r ∧
        r.deliveryAttempts = ops.length) ∧
    (∀ op tid r r', findById tbl tid = some r →
      findById (applyLedgerOp tbl op) tid = some r' →
      r.deliveryAttempts ≤ r'.deliveryAttempts) := by
  refine ⟨fun id d p e now r h => findById_update_found tbl id d p e now r h, ?_, ?_⟩
  · intro sid en ops hfresh
    obtain ⟨r', hr', hlen⟩ := applyAttempts_found en.id ops _ _
      (findById_saveMessage_fresh tbl sid en hfresh)
    exact ⟨r', hr', by simp [rowOfEntry] at hlen; exact hlen⟩
  · intro op tid r r' h h'
    cases op with
    | ingest sid en =>
      have := findById_saveMessage_found tbl sid en tid r h
      rw [applyLedgerOp] at h'
      rw [this] at h'
      cases h'
      exact le_refl _
    | recordSuccess id now =>
      rw [applyLedgerOp, findById_updateMessageDelivery, h] at h'
      cases h'
      unfold updFun
      split <;> simp
    | recordFailure id t reason now =>
      rw [applyLedgerOp, findById_updateMessageDelivery, h] at h'
      cases h'
      unfold updFun
      split <;> simp

/-- C4 witness: two attempts (one failure, one success) on a freshly ingested
message leave the counter at exactly 2. -/
theorem deliveryAttempts_exact_witness :
    ∃ r, findById (applyAttempts "m1"
        (saveMessage [] "A"
          { id := "m1", from_ := some "j", isGroup := false, timestamp := 7,
            text := some "hi", raw := none })
        [(false, some "http://h", some "boom", 1), (true, none, none, 2)])
        "m1" = some r ∧ r.deliveryAttempts = 2 := by
  obtain ⟨r, hr, hlen⟩ := (deliveryAttempts_exact []).2.1 "A"
    { id := "m1", from_ := some "j", isGroup := false, timestamp := 7,
      text := some "hi", raw := none }
    [(false, some "http://h", some "boom", 1), (true, none, none, 2)]
    (by decide)
  exact ⟨r, hr, hlen⟩

/-- C5: the resting-state invariant — a delivered row has a null
pendingWebhook — is preserved by every ledger operation as the repository
performs it (ingest, record-success, record-failure), and a successful
delivery sets lastDeliveryError to null (and pendingWebhook to null) on the
delivered row at that moment. -/
theorem resting_state_invariant (tbl : List MsgRow) (op : LedgerOp)
    (hinv : RestingInv tbl) :
    RestingInv (applyLedgerOp tbl op) ∧
    (∀ id now r', r' ∈ updateMessageDelivery tbl id true none none now →
      r'.id = id →
      r'.delivered = true ∧ r'.pendingWebhook = none ∧
        r'.lastDeliveryError = none) := by
  constructor
  · cases op with
    | ingest sid en =>
      rw [applyLedgerOp]
      unfold saveMessage
      split
      · exact hinv
      · intro r hr hd
        rcases List.mem_append.mp hr with hold | hnew
        · exact hinv r hold hd
        · simp only [List.mem_singleton] at hnew
          subst hnew
          simp [rowOfEntry] at hd
    | recordSuccess id now =>
      intro r' hr' hd
      rw [applyLedgerOp] at hr'
      obtain ⟨r, hrmem, rfl⟩ := List.mem_map.mp hr'
      by_cases hb : (r.id == id) = true
      · simp [updFun, hb]
      · simp only [updFun, hb, if_false] at hd ⊢
        exact hinv r hrmem hd
    | recordFailure id t reason now =>
      intro r' hr' hd
      rw [applyLedgerOp] at hr'
      obtain ⟨r, hrmem, rfl⟩ := List.mem_map.mp hr'
      by_cases hb : (r.id == id) = true
      · simp [updFun, hb] at hd
      · simp only [updFun, hb, if_false] at hd ⊢
        exact hinv r hrmem hd
  · intro id now r' hr' hid
    obtain ⟨r, hrmem, rfl⟩ := List.mem_map.mp hr'
    by_cases hb : (r.id == id) = true
    · simp [updFun, hb]
    · exfalso
      have : (updFun id true none none now r).id = r.id := updFun_id _ _ _ _ _ _
      rw [this] at hid
      exact hb (by simp [hid])

/-- C5 witness: recording a success for m1 on a table satisfying the
invariant preserves it, and the delivered row has null pendingWebhook and
lastDeliveryError. -/
theorem resting_state_invariant_witness :
    RestingInv (applyLedgerOp
      [{ id := "m1", sessionId := "A", fromJid := some "j", isGroup := false,
         timestampMs := 7, text := some "hi", raw := none, delivered := false,
         deliveredAt := none, deliveryAttempts := 1,
         lastDeliveryError := some "boom", pendingWebhook := some "http://h" }]
      (.recordSuccess "m1" 5)) := by
  have h := resting_state_invariant
    [{ id := "m1", sessionId := "A", fromJid := some "j", isGroup := false,
       timestampMs := 7, text := some "hi", raw := none, delivered := false,
       deliveredAt := none, deliveryAttempts := 1,
       lastDeliveryError := some "boom", pendingWebhook := some "http://h" }]
    (.recordSuccess "m1" 5)
    (by intro r hr hd; simp at hr; subst hr; simp at hd)
  exact h.1

/-- A manager state holding one connected session A: a runtime entry with a
live sock, a sessions row, a working-state auth folder, the legacy A.json
auth file, no pending timers. -/
def mgrA : SessionMgr :=
  { sockets := [("A", { sockPresent := true, isConnected := true })]
    dbSessions := ["A"]
    authDirs := ["A"]
    authFiles := ["A.json"]
    timers := []
    closedSocks := [] }

/-- C1 (counter-evidence): session A suffers a non-terminal close, which
schedules the single 5-second reconnect timer; A is then deleted, removing
its runtime entry; when the stale timer fires, its callback
() => this.startSession("A") runs startSession, which performs
this.sockets.set("A", ...) without any entry-existence check — so after the
timer fires the session map again holds a runtime entry for A, contradicting
the claimed no-op. -/
theorem stale_reconnect_recreates_entry :
    (handleConnectionClose mgrA "A" false).timers = ["A"] ∧
    (deleteSessionRoute (handleConnectionClose mgrA "A" false) "A").sockets.lookup "A"
      = none ∧
    (fireReconnectTimer
        (deleteSessionRoute (handleConnectionClose mgrA "A" false) "A")
        "A").sockets.lookup "A"
      = some { sockPresent := true, isConnected := false } := by
  refine ⟨rfl, rfl, rfl⟩

/-- C2 (counter-evidence): deleting session A closes its sock, removes the
runtime entry, deletes the sessions row and removes the legacy file
auth_sessions/A.json — but the working-state directory auth_sessions/A
survives the deletion, because the handler removes only the path
sessionId + '.json'.  Deleting an unknown id is a success no-op. -/
theorem deleteSession_keeps_working_dir :
    (deleteSessionRoute mgrA "A").closedSocks = ["A"] ∧
    (deleteSessionRoute mgrA "A").sockets = [] ∧
    (deleteSessionRoute mgrA "A").dbSessions = [] ∧
    (deleteSessionRoute mgrA "A").authFiles = [] ∧
    (deleteSessionRoute mgrA "A").authDirs = ["A"] ∧
    deleteSessionRoute mgrA "Z" = mgrA := by
  refine ⟨rfl, rfl, rfl, rfl, rfl, ?_⟩
  decide

/-- C9: pair-request validation and failure taxonomy.  An absent (or
non-string) or empty phone number is rejected as invalid input; a number
whose digit-stripped form has fewer than 10 or more than 15 digits is
rejected as invalid input; with a valid number, a session without a runtime
entry (or without a sock handle) yields the 503 not-initialized error; with
a valid number and a live handle, an error thrown by
sock.requestPairingCode surfaces as the 500 upstream failure wrapping the
error message, and a returned code is the success response. -/
theorem pairRequest_taxonomy (sockets : List (String × SockEntry))
    (sid : String) (n : String) (upstream : String → Except String String)
    (hsid : sid ≠ "") :
    (handlePairRequest sockets sid none upstream =
      .invalidInput "Valid phone number is required") ∧
    (n ≠ "" → ((cleanDigits n).length < 10 ∨ (cleanDigits n).length > 15) →
      handlePairRequest sockets sid (some n) upstream =
        .invalidInput "Phone number must be between 10-15 digits") ∧
    (10 ≤ (cleanDigits n).length → (cleanDigits n).length ≤ 15 →
      (sockets.lookup sid = none →
        handlePairRequest sockets sid (some n) upstream = .notInitialized) ∧
      (∀ s, sockets.lookup sid = some s → s.sockPresent = true →
        (∀ e, upstream (cleanDigits n) = .error e →
          handlePairRequest sockets sid (some n) upstream = .upstreamFailure e) ∧
        (∀ c, upstream (cleanDigits n) = .ok c →
          handlePairRequest sockets sid (some n) upstream = .success c))) := by
  have hsidb : (sid == "") = false := by
    simp [hsid]
  refine ⟨?_, ?_, ?_⟩
  · simp [handlePairRequest, hsidb, strTruthy]
  · intro hn hlen
    have ht : strTruthy (some n) = true := by simp [strTruthy, hn]
    simp [handlePairRequest, hsidb, ht, hlen]
  · intro h10 h15
    have hn : n ≠ "" := by
      intro h
      subst h
      simp [cleanDigits] at h10
    have ht : strTruthy (some n) = true := by simp [strTruthy, hn]
    have hlen : ¬((cleanDigits n).length < 10 ∨ (cleanDigits n).length > 15) := by
      omega
    constructor
    · intro hnone
      simp [handlePairRequest, hsidb, ht, hlen, hnone]
    · intro s hs hsock
      constructor
      · intro e he
        simp [handlePairRequest, hsidb, ht, hlen, hs, hsock, he]
      · intro c hc
        simp [handlePairRequest, hsidb, ht, hlen, hs, hsock, hc]

/-- C9 witness: a too-short number is invalid input; a valid number on a
missing session is not-initialized; a valid number on a live session returns
the upstream pairing code. -/
theorem pairRequest_taxonomy_witness :
    handlePairRequest [] "A" (some "+123") (fun _ => .ok "CODE") =
      .invalidInput "Phone number must be between 10-15 digits" ∧
    handlePairRequest [] "A" (some "+1234567890") (fun _ => .ok "CODE") =
      .notInitialized ∧
    handlePairRequest [("A", { sockPresent := true, isConnected := false })]
      "A" (some "+1234567890") (fun _ => .ok "CODE") = .success "CODE" := by
  refine ⟨?_, ?_, ?_⟩
  · exact (pairRequest_taxonomy [] "A" "+123" (fun _ => .ok "CODE")
      (by decide)).2.1 (by decide) (by decide)
  · exact ((pairRequest_taxonomy [] "A" "+1234567890" (fun _ => .ok "CODE")
      (by decide)).2.2 (by decide) (by decide)).1 (by decide)
  · exact (((pairRequest_taxonomy
      [("A", { sockPresent := true, isConnected := false })] "A" "+1234567890"
      (fun _ => .ok "CODE") (by decide)).2.2 (by decide) (by decide)).2
      { sockPresent := true, isConnected := false } (by decide) rfl).2 "CODE" rfl

theorem forwardLoop_results (w : String) (oracle : String → String → FetchResult)
    (now : Int) (msgs : List Message) : ∀ (tbl : List MsgRow),
    (forwardLoop w oracle now tbl msgs).2 = msgs.map (forwardOutcomeOf w oracle) := by
  induction msgs with
  | nil => intro tbl; rfl
  | cons m ms ih =>
    intro tbl
    simp only [forwardLoop, List.map_cons]
    cases h : (postToWebhook w (buildWebhookPayload m) (oracle w m.id)).2 with
    | ok u => simp [forwardOutcomeOf, h, ih]
    | error e => simp [forwardOutcomeOf, h, ih]

theorem retryLoop_results (w : Option String) (oracle : String → String → FetchResult)
    (now : Int) (msgs : List Message) : ∀ (tbl : List MsgRow),
    (retryLoop w oracle now tbl msgs).2 = msgs.map (retryOutcomeOf w oracle) := by
  induction msgs with
  | nil => intro tbl; rfl
  | cons m ms ih =>
    intro tbl
    simp only [retryLoop, List.map_cons]
    cases ht : retryTarget w m with
    | none => simp [retryOutcomeOf, ht, ih]
    | some t =>
      cases h : (postToWebhook t (buildWebhookPayload m) (oracle t m.id)).2 with
      | ok u => simp [retryOutcomeOf, ht, h, ih]
      | error e => simp [retryOutcomeOf, ht, h, ih]

/-- C6: one forward attempt POSTs the sanitized payload to the target with
content type application/json and the 5000 ms client-side abort timeout.  A
2xx response records delivered = true, pendingWebhook = null,
lastDeliveryError = null on the message; a non-2xx response, the abort, or a
network error records delivered = false, pendingWebhook = the attempted
target, lastDeliveryError = the failure reason; every case increments
deliveryAttempts. -/
theorem attemptForward_contract (m : Message) (url : String) (fr : FetchResult)
    (tbl : List MsgRow) (now : Int) (hurl : url ≠ "") :
    ((postToWebhook url (buildWebhookPayload m) fr).1 =
      some { url := url, method := "POST", contentType := "application/json",
             body := buildWebhookPayload m, timeoutMs := 5000 }) ∧
    (∀ st b, fr = .response st b → 200 ≤ st → st ≤ 299 →
      (forwardLoop url (fun _ _ => fr) now tbl [m]).2 =
        [{ id := m.id, status := "delivered" }] ∧
      ∀ r, findById tbl m.id = some r →
        findById (forwardLoop url (fun _ _ => fr) now tbl [m]).1 m.id =
          some { r with
                 deliveryAttempts := r.deliveryAttempts + 1
                 delivered := true
                 deliveredAt := some now
                 lastDeliveryError := none
                 pendingWebhook := none }) ∧
    (∀ st b, fr = .response st b → ¬(200 ≤ st ∧ st ≤ 299) →
      (forwardLoop url (fun _ _ => fr) now tbl [m]).2 =
        [{ id := m.id, status := "pending",
           error := some ("Webhook POST failed: " ++ toString st ++ " " ++ b) }] ∧
      ∀ r, findById tbl m.id = some r →
        findById (forwardLoop url (fun _ _ => fr) now tbl [m]).1 m.id =
          some { r with
                 deliveryAttempts := r.deliveryAttempts + 1
                 delivered := false
                 lastDeliveryError :=
                   some ("Webhook POST failed: " ++ toString st ++ " " ++ b)
                 pendingWebhook := some url }) ∧
    (∀ msg, fr = .abortOrNetworkError msg →
      (forwardLoop url (fun _ _ => fr) now tbl [m]).2 =
        [{ id := m.id, status := "pending", error := some msg }] ∧
      ∀ r, findById tbl m.id = some r →
        findById (forwardLoop url (fun _ _ => fr) now tbl [m]).1 m.id =
          some { r with
                 deliveryAttempts := r.deliveryAttempts + 1
                 delivered := false
                 lastDeliveryError := some msg
                 pendingWebhook := some url }) := by
  have hb : (url == "") = false := by simp [hurl]
  refine ⟨?_, ?_, ?_, ?_⟩
  · simp [postToWebhook, hb, webhookTimeoutMs]
  · intro st b hfr h200 h299
    subst hfr
    have hok : resOk st = true := by
      simp [resOk]
      omega
    have hpost : (postToWebhook url (buildWebhookPayload m) (.response st b)).2 =
        .ok () := by
      simp [postToWebhook, hb, hok]
    have hloop : forwardLoop url (fun _ _ => FetchResult.response st b) now tbl [m] =
        (updateMessageDelivery tbl m.id true none none now,
         [{ id := m.id, status := "delivered" }]) := by
      simp [forwardLoop, hpost]
    rw [hloop]
    refine ⟨rfl, fun r hr => ?_⟩
    have := findById_update_found tbl m.id true none none now r hr
    simpa using this
  · intro st b hfr hno
    subst hfr
    have hok : resOk st = false := by
      simp [resOk]
      omega
    have hpost : (postToWebhook url (buildWebhookPayload m) (.response st b)).2 =
        .error ("Webhook POST failed: " ++ toString st ++ " " ++ b) := by
      simp [postToWebhook, hb, hok]
    have hloop : forwardLoop url (fun _ _ => FetchResult.response st b) now tbl [m] =
        (updateMessageDelivery tbl m.id false
           (some url) (some ("Webhook POST failed: " ++ toString st ++ " " ++ b)) now,
         [{ id := m.id, status := "pending",
            error := some ("Webhook POST failed: " ++ toString st ++ " " ++ b) }]) := by
      simp [forwardLoop, hpost]
    rw [hloop]
    refine ⟨rfl, fun r hr => ?_⟩
    have := findById_update_found tbl m.id false (some url)
      (some ("Webhook POST failed: " ++ toString st ++ " " ++ b)) now r hr
    simpa using this
  · intro msg hfr
    subst hfr
    have hpost : (postToWebhook url (buildWebhookPayload m)
        (.abortOrNetworkError msg)).2 = .error msg := by
      simp [postToWebhook, hb]
    have hloop : forwardLoop url (fun _ _ => FetchResult.abortOrNetworkError msg)
        now tbl [m] =
        (updateMessageDelivery tbl m.id false (some url) (some msg) now,
         [{ id := m.id, status := "pending", error := some msg }]) := by
      simp [forwardLoop, hpost]
    rw [hloop]
    refine ⟨rfl, fun r hr => ?_⟩
    have := findById_update_found tbl m.id false (some url) (some msg) now r hr
    simpa using this

/-- C6 witness: a 200 response on message m1 yields the delivered outcome
and a table row with delivered = true, no pending webhook, no error, and
the attempt counter incremented from 0 to 1. -/
theorem attemptForward_contract_witness :
    (forwardLoop "http://h" (fun _ _ => .response 200 "ok") 5
        [{ id := "m1", sessionId := "A", fromJid := some "j", isGroup := false,
           timestampMs := 7, text := some "hi", raw := none, delivered := false,
           deliveredAt := none, deliveryAttempts := 0, lastDeliveryError := none,
           pendingWebhook := none }]
        [{ id := "m1", from_ := some "j", isGroup := false, timestamp := 7,
           text := some "hi", delivered := false, deliveryAttempts := 0,
           lastDeliveryError := none, pendingWebhook := none, raw := none }]).2 =
      [{ id := "m1", status := "delivered" }] := by
  have h := (attemptForward_contract
    { id := "m1", from_ := some "j", isGroup := false, timestamp := 7,
      text := some "hi", delivered := false, deliveryAttempts := 0,
      lastDeliveryError := none, pendingWebhook := none, raw := none }
    "http://h" (.response 200 "ok")
    [{ id := "m1", sessionId := "A", fromJid := some "j", isGroup := false,
       timestampMs := 7, text := some "hi", raw := none, delivered := false,
       deliveredAt := none, deliveryAttempts := 0, lastDeliveryError := none,
       pendingWebhook := none }]
    5 (by decide)).2.1 200 "ok" rfl (by decide) (by decide)
  exact h.1

theorem take_sorted_most_recent (base : List MsgRow) (n : Nat) (r : MsgRow)
    (hr : r ∈ base) (hnot : r ∉ (List.insertionSort tsDesc base).take n) :
    ∀ s ∈ (List.insertionSort tsDesc base).take n, r.timestampMs ≤ s.timestampMs := by
  intro s hs
  have hmem : r ∈ List.insertionSort tsDesc base :=
    (List.mem_insertionSort tsDesc).mpr hr
  have hsorted : List.Sorted tsDesc (List.insertionSort tsDesc base) :=
    List.sorted_insertionSort tsDesc base
  have hsplit : (List.insertionSort tsDesc base).take n ++
      (List.insertionSort tsDesc base).drop n = List.insertionSort tsDesc base :=
    List.take_append_drop n _
  have hpw : List.Pairwise tsDesc ((List.insertionSort tsDesc base).take n ++
      (List.insertionSort tsDesc base).drop n) := by
    rw [hsplit]
    exact hsorted
  have h3 := (List.pairwise_append.mp hpw).2.2
  have hdrop : r ∈ (List.insertionSort tsDesc base).drop n := by
    have hm : r ∈ (List.insertionSort tsDesc base).take n ++
        (List.insertionSort tsDesc base).drop n := by
      rw [hsplit]
      exact hmem
    rcases List.mem_append.mp hm with h | h
    · exact absurd h hnot
    · exact h
  exact h3 s hs r hdrop

/-- C7: the forward route operates on exactly the listed messages scoped to
the session when a non-empty ids array is given, and on the most recent 50
messages of the session when ids is omitted (at most 50 rows, all belonging
to the session, and every session row left out is no newer than any selected
row); it attempts the batch sequentially and returns one outcome per message,
each message's outcome depending only on that message's own attempt — so an
individual failure cannot abort the remaining batch. -/
theorem forward_batch_spec (tbl : List MsgRow) (sid w : String)
    (l : List String) (oracle : String → String → FetchResult) (now : Int)
    (hsid : sid ≠ "") (hw : w ≠ "") :
    (l ≠ [] →
      forwardRoute tbl sid (some w) (some l) oracle now =
        .ok (forwardLoop w oracle now tbl (getMessagesByIds tbl l sid)) ∧
      (∀ r : MsgRow, r ∈ getMessagesByIdsRows tbl l sid ↔
        (r ∈ tbl ∧ r.id ∈ l ∧ r.sessionId = sid))) ∧
    (forwardRoute tbl sid (some w) none oracle now =
        .ok (forwardLoop w oracle now tbl (getMessages tbl sid { limit := 50 })) ∧
      (getMessagesRows tbl sid { limit := 50 }).length ≤ 50 ∧
      (∀ r ∈ getMessagesRows tbl sid { limit := 50 }, r ∈ tbl ∧ r.sessionId = sid) ∧
      (∀ r ∈ tbl, r.sessionId = sid →
        r ∉ getMessagesRows tbl sid { limit := 50 } →
        ∀ s ∈ getMessagesRows tbl sid { limit := 50 },
          r.timestampMs ≤ s.timestampMs)) ∧
    (∀ msgs : List Message, (forwardLoop w oracle now tbl msgs).2 =
      msgs.map (forwardOutcomeOf w oracle)) := by
  have hsidb : (sid == "") = false := by simp [hsid]
  have hwt : strTruthy (some w) = true := by simp [strTruthy, hw]
  have heff : effLimit 50 = 50 := by decide
  refine ⟨?_, ⟨?_, ?_, ?_, ?_⟩, fun msgs => forwardLoop_results w oracle now msgs tbl⟩
  · intro hl
    have hl' : l.isEmpty = false := by
      cases l
      · simp at hl
      · rfl
    constructor
    · simp [forwardRoute, hsidb, hwt, hl']
    · intro r
      simp [getMessagesByIdsRows, hl', List.mem_filter, hsidb]
  · simp [forwardRoute, hsidb, hwt]
  · rw [getMessagesRows, heff]
    exact List.length_take_le 50 _
  · intro r hr
    rw [getMessagesRows] at hr
    have h1 : r ∈ List.insertionSort tsDesc _ := List.mem_of_mem_take hr
    have h2 := (List.mem_insertionSort tsDesc).mp h1
    have h3 := List.mem_filter.mp h2
    refine ⟨h3.1, ?_⟩
    have := h3.2
    simp at this
    exact this
  · intro r hr hrsid hnot s hs
    rw [getMessagesRows] at hnot hs
    have hbase : r ∈ tbl.filter fun r =>
        (r.sessionId == sid)
        && (match (none : Option String) with
            | some "group" => r.isGroup
            | some "individual" => !r.isGroup
            | _ => true)
        && (match (none : Option Int) with
            | some t => if t == 0 then true else decide (t ≤ r.timestampMs)
            | none => true) := by
      rw [List.mem_filter]
      refine ⟨hr, ?_⟩
      simp [hrsid]
    exact take_sorted_most_recent _ _ r hbase hnot s hs

/-- C7 witness: with ids given, the forward route runs the loop over exactly
the session-scoped listed messages of a concrete two-row table. -/
theorem forward_batch_spec_witness :
    forwardRoute
      [{ id := "m1", sessionId := "A", fromJid := some "j", isGroup := false,
         timestampMs := 7, text := some "hi", raw := none, delivered := false,
         deliveredAt := none, deliveryAttempts := 0, lastDeliveryError := none,
         pendingWebhook := none },
       { id := "m2", sessionId := "B", fromJid := some "k", isGroup := false,
         timestampMs := 9, text := some "yo", raw := none, delivered := false,
         deliveredAt := none, deliveryAttempts := 0, lastDeliveryError := none,
         pendingWebhook := none }]
      "A" (some "http://h") (some ["m1", "m2"])
      (fun _ _ => .response 200 "ok") 5 =
    .ok (forwardLoop "http://h" (fun _ _ => .response 200 "ok") 5
      [{ id := "m1", sessionId := "A", fromJid := some "j", isGroup := false,
         timestampMs := 7, text := some "hi", raw := none, delivered := false,
         deliveredAt := none, deliveryAttempts := 0, lastDeliveryError := none,
         pendingWebhook := none },
       { id := "m2", sessionId := "B", fromJid := some "k", isGroup := false,
         timestampMs := 9, text := some "yo", raw := none, delivered := false,
         deliveredAt := none, deliveryAttempts := 0, lastDeliveryError := none,
         pendingWebhook := none }]
      (getMessagesByIds
        [{ id := "m1", sessionId := "A", fromJid := some "j", isGroup := false,
           timestampMs := 7, text := some "hi", raw := none, delivered := false,
           deliveredAt := none, deliveryAttempts := 0, lastDeliveryError := none,
           pendingWebhook := none },
         { id := "m2", sessionId := "B", fromJid := some "k", isGroup := false,
           timestampMs := 9, text := some "yo", raw := none, delivered := false,
           deliveredAt := none, deliveryAttempts := 0, lastDeliveryError := none,
           pendingWebhook := none }]
        ["m1", "m2"] "A")) :=
  ((forward_batch_spec _ "A" "http://h" ["m1", "m2"]
    (fun _ _ => .response 200 "ok") 5 (by decide) (by decide)).1
    (by decide)).1

/-- C8: the retry route operates on the session-scoped listed messages when
a non-empty ids array is given and on the undelivered/pending messages of
the session (filtered to those pending against the supplied target when one
is given) when ids is omitted; each message is retried against the supplied
target when one is given, else against its own recorded pendingWebhook, and
a message with neither is reported skipped without any attempt — the table,
and hence every delivery field including deliveryAttempts, is untouched for
it; outcomes are reported per message. -/
theorem retry_targeting_spec (tbl : List MsgRow) (sid : String)
    (l : List String) (w : Option String)
    (oracle : String → String → FetchResult) (now : Int) (hsid : sid ≠ "") :
    (l ≠ [] →
      retryRoute tbl sid (some l) w oracle now =
        .ok (retryLoop w oracle now tbl (getMessagesByIds tbl l sid)) ∧
      (∀ r : MsgRow, r ∈ getMessagesByIdsRows tbl l sid ↔
        (r ∈ tbl ∧ r.id ∈ l ∧ r.sessionId = sid))) ∧
    (∀ m : Message,
      (strTruthy w = true → retryTarget w m = w) ∧
      (strTruthy w = false → strTruthy m.pendingWebhook = true →
        retryTarget w m = m.pendingWebhook) ∧
      (strTruthy w = false → strTruthy m.pendingWebhook = false →
        retryTarget w m = none)) ∧
    (∀ (m : Message) (tblAny : List MsgRow), retryTarget w m = none →
      retryLoop w oracle now tblAny [m] =
        (tblAny, [{ id := m.id, status := "skipped",
                    reason := some "no webhook configured" }])) ∧
    (retryRoute tbl sid none w oracle now =
        .ok (retryLoop w oracle now tbl (getUndeliveredMessages tbl sid w)) ∧
      (∀ r : MsgRow, r ∈ getUndeliveredRows tbl sid w ↔
        (r ∈ tbl ∧ r.sessionId = sid ∧
          (r.delivered = false ∨ r.pendingWebhook ≠ none) ∧
          (∀ w', w = some w' → w' ≠ "" → r.pendingWebhook = some w')))) ∧
    (∀ msgs : List Message, (retryLoop w oracle now tbl msgs).2 =
      msgs.map (retryOutcomeOf w oracle)) := by
  have hsidb : (sid == "") = false := by simp [hsid]
  refine ⟨?_, ?_, ?_, ⟨?_, ?_⟩, fun msgs => retryLoop_results w oracle now msgs tbl⟩
  · intro hl
    have hl' : l.isEmpty = false := by
      cases l
      · simp at hl
      · rfl
    constructor
    · simp [retryRoute, hsidb, hl']
    · intro r
      simp [getMessagesByIdsRows, hl', List.mem_filter, hsidb]
  · intro m
    refine ⟨fun h => ?_, fun h1 h2 => ?_, fun h1 h2 => ?_⟩
    · simp [retryTarget, h]
    · simp [retryTarget, h1, h2]
    · simp [retryTarget, h1, h2]
  · intro m tblAny hnone
    simp [retryLoop, hnone]
  · simp [retryRoute, hsidb]
  · intro r
    unfold getUndeliveredRows
    rw [List.mem_insertionSort, List.mem_filter]
    cases w with
    | none => simp [Option.isSome_iff_ne_none]
    | some w' =>
      by_cases hw' : w' = ""
      · subst hw'
        simp [Option.isSome_iff_ne_none]
      · have : (w' == "") = false := by simp [hw']
        simp [this, Option.isSome_iff_ne_none, hw']
        tauto

/-- C8 witness: a message with no supplied target and no recorded
pendingWebhook is skipped and the table is left untouched. -/
theorem retry_targeting_spec_witness :
    retryLoop none (fun _ _ => .response 200 "ok") 5
      [{ id := "m1", sessionId := "A", fromJid := some "j", isGroup := false,
         timestampMs := 7, text := some "hi", raw := none, delivered := false,
         deliveredAt := none, deliveryAttempts := 3, lastDeliveryError := none,
         pendingWebhook := none }]
      [{ id := "m1", from_ := some "j", isGroup := false, timestamp := 7,
         text := some "hi", delivered := false, deliveryAttempts := 3,
         lastDeliveryError := none, pendingWebhook := none, raw := none }] =
    ([{ id := "m1", sessionId := "A", fromJid := some "j", isGroup := false,
        timestampMs := 7, text := some "hi", raw := none, delivered := false,
        deliveredAt := none, deliveryAttempts := 3, lastDeliveryError := none,
        pendingWebhook := none }],
     [{ id := "m1", status := "skipped",
        reason := some "no webhook configured" }]) :=
  (retry_targeting_spec [] "A" [] none (fun _ _ => .response 200 "ok") 5
    (by decide)).2.2.1
    { id := "m1", from_ := some "j", isGroup := false, timestamp := 7,
      text := some "hi", delivered := false, deliveryAttempts := 3,
      lastDeliveryError := none, pendingWebhook := none, raw := none }
    [{ id := "m1", sessionId := "A", fromJid := some "j", isGroup := false,
       timestampMs := 7, text := some "hi", raw := none, delivered := false,
       deliveredAt := none, deliveryAttempts := 3, lastDeliveryError := none,
       pendingWebhook := none }]
    (by decide)

/-- C10: for both the forward route and the forward/retry route, an empty
ids array fails the JS truthiness test ids && Array.isArray(ids) &&
ids.length, so the handler behaves exactly as when ids is omitted: forward
selects the most recent 50 messages of the session, retry selects the
undelivered/pending messages of the session. -/
theorem empty_ids_same_as_omitted (tbl : List MsgRow) (sid : String)
    (w : Option String) (oracle : String → String → FetchResult) (now : Int) :
    forwardRoute tbl sid w (some []) oracle now =
      forwardRoute tbl sid w none oracle now ∧
    retryRoute tbl sid (some []) w oracle now =
      retryRoute tbl sid none w oracle now :=
  ⟨rfl, rfl⟩

end WaApi
